import Mathlib

/-!
# Snippet controller (snipnet/internal/controllers/snippet.go)

A shallow embedding of the seven HTTP handlers of `SnippetController`.

* The storage collaborator `services.SnippetStore` is an interface: it is a record of
  state-passing functions over an arbitrary state type `σ`.
* Every invocation of a store method is recorded in `World.calls`, so that
  "the handler never invokes the update" is a statement about the recorded calls.
* `utils.ParseJson` and `utils.Validate.Struct` are collaborators taken as parameters
  (`Utils`); `uuid.NewString()` is the parameter `newID`.
* A handler whose first statement is the unchecked type assertion
  `r.Context().Value(types.AuthSession).(types.Session)` returns `none` (the Go panic)
  when the request carries no session.
-/

namespace Snipnet

/-! ## Data model -/

/-- A Go `error` value, identified with its message. -/
abbrev Err := String

/-- Modelled from the spec: `services.Snippet` (declared in snipnet/lib/services, outside
the controller file): id, owner user id, title, description, code. -/
structure Snippet where
  ID : String
  UserID : String
  Title : String
  Description : String
  Code : String
deriving DecidableEq, Repr

/-- Modelled from the spec: `types.UpdateOneData`, a field-name and new-value pair. -/
structure UpdateOneData where
  Field : String
  Value : String
deriving DecidableEq, Repr

/-- Modelled from the spec: `types.Session`, the authenticated identity carrying a user id. -/
structure Session where
  UserID : String
deriving DecidableEq, Repr

/-- The parts of `*http.Request` the handlers read: the context value stored under
`types.AuthSession`, the path values, and the payload (an object of string members once
decoded, `none` when no well-formed JSON object is attached). -/
structure Request where
  AuthSession : Option Session
  PathValue : String → String
  Body : Option (List (String × String))

/-- What a handler hands to the response writer as `data` or `err`. -/
inductive Payload where
  | empty
  | error (err : Err)
  | snippet (s : Snippet)
  | snippets (l : List Snippet)
deriving DecidableEq, Repr

/-- What was written to the `http.ResponseWriter`. -/
structure Response where
  status : Nat
  message : String
  payload : Payload
deriving DecidableEq, Repr

def StatusOK : Nat := 200
def StatusCreated : Nat := 201
def StatusNoContent : Nat := 204
def StatusBadRequest : Nat := 400
def StatusUnauthorized : Nat := 401
def StatusNotFound : Nat := 404
def StatusInternalServerError : Nat := 500

/-- Modelled from the spec: `utils.WriteErr` formats (status, message, underlying error)
into the error envelope. -/
def WriteErr (status : Nat) (message : String) (err : Err) : Response :=
  ⟨status, message, Payload.error err⟩

/-- Modelled from the spec: `utils.WriteRes` formats (status, message, payload) into the
success envelope. -/
def WriteRes (status : Nat) (message : String) (data : Payload) : Response :=
  ⟨status, message, data⟩

/-- The effect of `w.WriteHeader(status)` alone: a status line and an empty body. -/
def WriteHeader (status : Nat) : Response :=
  ⟨status, "", Payload.empty⟩

/-- The value of `uuid.NewString()`: a string in the canonical 36-character form. -/
structure UUID where
  str : String
  canonical : str.length = 36

/-! ## Collaborators -/

/-- The interface `services.SnippetStore`. Each method takes the store state and returns
its Go result together with the state it leaves behind. -/
structure SnippetStore (σ : Type) where
  GetSnippet : String → σ → Except Err Snippet × σ
  GetSnippets : σ → Except Err (List Snippet) × σ
  GetSnippetsUser : String → σ → Except Err (List Snippet) × σ
  CreateSnippet : Snippet → σ → Except Err Snippet × σ
  UpdateSnippetMulti : Snippet → σ → Except Err Snippet × σ
  UpdateSnippetSingle : String → String → String → σ → Except Err Snippet × σ
  DeleteSnippet : String → σ → Option Err × σ

/-- One invocation of a store method, with its arguments. -/
inductive StoreCall where
  | GetSnippet (id : String)
  | GetSnippets
  | GetSnippetsUser (userID : String)
  | CreateSnippet (s : Snippet)
  | UpdateSnippetMulti (s : Snippet)
  | UpdateSnippetSingle (id field value : String)
  | DeleteSnippet (id : String)
deriving DecidableEq, Repr

/-- The mutating store operations: create, multi-field update, single-field update, delete. -/
def StoreCall.isMutation : StoreCall → Bool
  | StoreCall.CreateSnippet _ => true
  | StoreCall.UpdateSnippetMulti _ => true
  | StoreCall.UpdateSnippetSingle _ _ _ => true
  | StoreCall.DeleteSnippet _ => true
  | _ => false

def StoreCall.isUpdateMulti : StoreCall → Bool
  | StoreCall.UpdateSnippetMulti _ => true
  | _ => false

def StoreCall.isDelete : StoreCall → Bool
  | StoreCall.DeleteSnippet _ => true
  | _ => false

/-- The store state together with the store methods invoked so far, oldest first. -/
structure World (σ : Type) where
  state : σ
  calls : List StoreCall

/-- A world in which no store method has been invoked yet. -/
def World.fresh {σ : Type} (st : σ) : World σ := ⟨st, []⟩

/-- The package-level helpers of snipnet/internal/utils used by the handlers:
`ParseJson(r, &body)` at the two body types, and `Validate.Struct(body)` at the two
body types (`none` is the Go `nil` error). -/
structure Utils where
  ParseJsonSnippet : Request → Except Err Snippet
  ParseJsonUpdateOne : Request → Except Err UpdateOneData
  ValidateSnippet : Snippet → Option Err
  ValidateUpdateOne : UpdateOneData → Option Err

/-- The struct `SnippetController`; the logger and the (unused) cache handle carry no
behaviour the handlers depend on. -/
structure SnippetController (σ : Type) where
  snippets : SnippetStore σ

section calls
variable {σ : Type}

/-- The call `s.snippets.GetSnippet(id)`, recorded. -/
def SnippetStore.callGetSnippet (S : SnippetStore σ) (id : String) (w : World σ) :
    Except Err Snippet × World σ :=
  ((S.GetSnippet id w.state).1,
    ⟨(S.GetSnippet id w.state).2, w.calls ++ [StoreCall.GetSnippet id]⟩)

/-- The call `s.snippets.GetSnippets()`, recorded. -/
def SnippetStore.callGetSnippets (S : SnippetStore σ) (w : World σ) :
    Except Err (List Snippet) × World σ :=
  ((S.GetSnippets w.state).1,
    ⟨(S.GetSnippets w.state).2, w.calls ++ [StoreCall.GetSnippets]⟩)

/-- The call `s.snippets.GetSnippetsUser(user_id)`, recorded. -/
def SnippetStore.callGetSnippetsUser (S : SnippetStore σ) (userID : String) (w : World σ) :
    Except Err (List Snippet) × World σ :=
  ((S.GetSnippetsUser userID w.state).1,
    ⟨(S.GetSnippetsUser userID w.state).2, w.calls ++ [StoreCall.GetSnippetsUser userID]⟩)

/-- The call `s.snippets.CreateSnippet(&body)`, recorded. -/
def SnippetStore.callCreateSnippet (S : SnippetStore σ) (body : Snippet) (w : World σ) :
    Except Err Snippet × World σ :=
  ((S.CreateSnippet body w.state).1,
    ⟨(S.CreateSnippet body w.state).2, w.calls ++ [StoreCall.CreateSnippet body]⟩)

/-- The call `s.snippets.UpdateSnippetMulti(&body)`, recorded. -/
def SnippetStore.callUpdateSnippetMulti (S : SnippetStore σ) (body : Snippet) (w : World σ) :
    Except Err Snippet × World σ :=
  ((S.UpdateSnippetMulti body w.state).1,
    ⟨(S.UpdateSnippetMulti body w.state).2, w.calls ++ [StoreCall.UpdateSnippetMulti body]⟩)

/-- The call `s.snippets.UpdateSnippetSingle(id, field, value)`, recorded. -/
def SnippetStore.callUpdateSnippetSingle (S : SnippetStore σ) (id field value : String)
    (w : World σ) : Except Err Snippet × World σ :=
  ((S.UpdateSnippetSingle id field value w.state).1,
    ⟨(S.UpdateSnippetSingle id field value w.state).2,
      w.calls ++ [StoreCall.UpdateSnippetSingle id field value]⟩)

/-- The call `s.snippets.DeleteSnippet(id)`, recorded. -/
def SnippetStore.callDeleteSnippet (S : SnippetStore σ) (id : String) (w : World σ) :
    Option Err × World σ :=
  ((S.DeleteSnippet id w.state).1,
    ⟨(S.DeleteSnippet id w.state).2, w.calls ++ [StoreCall.DeleteSnippet id]⟩)

end calls

/-! ## The handlers -/

section handlers
variable {σ : Type}

/-- `func (s *SnippetController) DeleteSnippet(w, r)`. -/
def SnippetController.DeleteSnippet (s : SnippetController σ) (r : Request) (w : World σ) :
    Option (Response × World σ) :=
  match r.AuthSession with
  | none => none
  | some session =>
    let id := r.PathValue "id"
    match s.snippets.callGetSnippet id w with
    | (Except.error err, w1) =>
      some (WriteErr StatusNotFound ("Snippet with " ++ id ++ " not found") err, w1)
    | (Except.ok snippet, w1) =>
      if session.UserID ≠ snippet.UserID then
        some (WriteErr StatusUnauthorized "You are not authorized to access this resource"
          "Not authorized", w1)
      else
        match s.snippets.callDeleteSnippet id w1 with
        | (some err, w2) =>
          some (WriteErr StatusInternalServerError "An error occured while deleting snippet"
            err, w2)
        | (none, w2) => some (WriteHeader StatusNoContent, w2)

/-- `func (s *SnippetController) UpdateSnippetMulti(w, r)`. -/
def SnippetController.UpdateSnippetMulti (u : Utils) (s : SnippetController σ) (r : Request)
    (w : World σ) : Option (Response × World σ) :=
  match r.AuthSession with
  | none => none
  | some session =>
    let id := r.PathValue "id"
    match u.ParseJsonSnippet r with
    | Except.error err => some (WriteErr StatusBadRequest "No payload attached to req" err, w)
    | Except.ok body =>
      match u.ValidateSnippet body with
      | some error => some (WriteErr StatusBadRequest "Missing parameters" error, w)
      | none =>
        match s.snippets.callGetSnippet id w with
        | (Except.error err, w1) =>
          some (WriteErr StatusNotFound ("Snippet with " ++ id ++ " not found") err, w1)
        | (Except.ok sp, w1) =>
          if session.UserID ≠ sp.UserID then
            some (WriteErr StatusUnauthorized "You are not authorized to access this resource"
              "Not authorized", w1)
          else
            let body := { body with ID := sp.ID, UserID := sp.UserID }
            match s.snippets.callUpdateSnippetMulti body w1 with
            | (Except.error err, w2) =>
              some (WriteErr StatusInternalServerError "Unable to update snippet" err, w2)
            | (Except.ok snippet, w2) =>
              some (WriteRes StatusOK "Updated snippet" (Payload.snippet snippet), w2)

/-- `func (s *SnippetController) UpdateSnippetOne(w, r)`. -/
def SnippetController.UpdateSnippetOne (u : Utils) (s : SnippetController σ) (r : Request)
    (w : World σ) : Option (Response × World σ) :=
  match r.AuthSession with
  | none => none
  | some session =>
    let id := r.PathValue "id"
    match u.ParseJsonUpdateOne r with
    | Except.error err => some (WriteErr StatusBadRequest "No payload attached to req" err, w)
    | Except.ok body =>
      match u.ValidateUpdateOne body with
      | some error => some (WriteErr StatusBadRequest "Missing parameters" error, w)
      | none =>
        match s.snippets.callGetSnippet id w with
        | (Except.error err, w1) =>
          some (WriteErr StatusNotFound ("Snippet with " ++ id ++ " not found") err, w1)
        | (Except.ok sp, w1) =>
          if session.UserID ≠ sp.UserID then
            some (WriteErr StatusUnauthorized "You are not authorized to access this resource"
              "Not authorized", w1)
          else if body.Field ≠ "title" ∧ body.Field ≠ "description" ∧ body.Field ≠ "code" then
            some (WriteErr StatusBadRequest "You can\x27t updated that parameter"
              "Invalid field Value", w1)
          else
            match s.snippets.callUpdateSnippetSingle id body.Field body.Value w1 with
            | (Except.error err, w2) =>
              some (WriteErr StatusBadRequest "An error occured while updating the resource"
                err, w2)
            | (Except.ok snippet, w2) =>
              some (WriteRes StatusOK "Updated snippet" (Payload.snippet snippet), w2)

/-- `func (s *SnippetController) GetAllUserSnippets(w, r)`. -/
def SnippetController.GetAllUserSnippets (s : SnippetController σ) (r : Request)
    (w : World σ) : Response × World σ :=
  let user_id := r.PathValue "userid"
  match s.snippets.callGetSnippetsUser user_id w with
  | (Except.error err, w1) => (WriteErr StatusNotFound "Error fetching snippets" err, w1)
  | (Except.ok snippets, w1) =>
    (WriteRes StatusOK "User\x27s snippets found" (Payload.snippets snippets), w1)

/-- `func (s *SnippetController) GetAllSnippets(w, r)`. -/
def SnippetController.GetAllSnippets (s : SnippetController σ) (_r : Request)
    (w : World σ) : Response × World σ :=
  match s.snippets.callGetSnippets w with
  | (Except.error err, w1) => (WriteErr StatusNotFound "Error fetching snippets" err, w1)
  | (Except.ok snippets, w1) =>
    (WriteRes StatusOK "Snippets found" (Payload.snippets snippets), w1)

/-- `func (s *SnippetController) GetSnippetByID(w, r)`. -/
def SnippetController.GetSnippetByID (s : SnippetController σ) (r : Request)
    (w : World σ) : Response × World σ :=
  let id := r.PathValue "id"
  match s.snippets.callGetSnippet id w with
  | (Except.error err, w1) =>
    (WriteErr StatusNotFound ("Snippet with " ++ id ++ " not found") err, w1)
  | (Except.ok snippet, w1) =>
    (WriteRes StatusOK "Snippet found" (Payload.snippet snippet), w1)

/-- `func (s *SnippetController) CreateSnippet(w, r)`; `newID` is the value returned by
`uuid.NewString()` in this run. -/
def SnippetController.CreateSnippet (u : Utils) (newID : UUID) (s : SnippetController σ)
    (r : Request) (w : World σ) : Option (Response × World σ) :=
  match r.AuthSession with
  | none => none
  | some session =>
    match u.ParseJsonSnippet r with
    | Except.error err => some (WriteErr StatusBadRequest "No payload attached to req" err, w)
    | Except.ok body =>
      match u.ValidateSnippet body with
      | some error => some (WriteErr StatusBadRequest "Missing parameters" error, w)
      | none =>
        let body := { body with ID := newID.str, UserID := session.UserID }
        match s.snippets.callCreateSnippet body w with
        | (Except.error err, w1) =>
          some (WriteErr StatusInternalServerError "An error occured while creating snippet"
            err, w1)
        | (Except.ok snippet, w1) =>
          some (WriteRes StatusCreated "Snippet created" (Payload.snippet snippet), w1)

end handlers

/-! ## Reference collaborators (used to run the handlers on concrete requests) -/

/-- The string member `k` of a decoded JSON object; the Go zero value when absent. -/
def jsonMember (obj : List (String × String)) (k : String) : String :=
  (obj.lookup k).getD ""

/-- Modelled from the spec: `utils.ParseJson` into a `services.Snippet`; fails when no
payload is attached, otherwise fills the struct from the members of the object. -/
def ParseJsonSnippet (r : Request) : Except Err Snippet :=
  match r.Body with
  | none => Except.error "EOF"
  | some obj =>
    Except.ok
      { ID := jsonMember obj "id", UserID := jsonMember obj "userID",
        Title := jsonMember obj "title", Description := jsonMember obj "description",
        Code := jsonMember obj "code" }

/-- Modelled from the spec: `utils.ParseJson` into a `types.UpdateOneData`. -/
def ParseJsonUpdateOne (r : Request) : Except Err UpdateOneData :=
  match r.Body with
  | none => Except.error "EOF"
  | some obj => Except.ok { Field := jsonMember obj "field", Value := jsonMember obj "value" }

/-- Modelled from the spec: `utils.Validate.Struct` on a snippet: title, description and
code are required. -/
def ValidateSnippet (b : Snippet) : Option Err :=
  if b.Title = "" ∨ b.Description = "" ∨ b.Code = "" then some "required" else none

/-- Modelled from the spec: `utils.Validate.Struct` on a single-field update: field and
value are required. -/
def ValidateUpdateOne (b : UpdateOneData) : Option Err :=
  if b.Field = "" ∨ b.Value = "" then some "required" else none

/-- The reference helpers bundled as a `Utils`. -/
def stdUtils : Utils :=
  ⟨ParseJsonSnippet, ParseJsonUpdateOne, ValidateSnippet, ValidateUpdateOne⟩

/-- The snippet `x` with the allow-listed field `field` set to `value`. -/
def setField (x : Snippet) (field value : String) : Snippet :=
  if field = "title" then { x with Title := value }
  else if field = "description" then { x with Description := value }
  else if field = "code" then { x with Code := value }
  else x

/-- Modelled from the spec: a `services.SnippetStore` (snipnet/lib/services, outside the
controller file) that behaves as a finite map from id to snippet: create inserts, delete
removes, get fails exactly on absent ids. The state is the list of stored snippets, at
most one per id. -/
def mapStore : SnippetStore (List Snippet) where
  GetSnippet id st :=
    (match st.find? (fun x => x.ID == id) with
      | some x => Except.ok x
      | none => Except.error "sql: no rows in result set", st)
  GetSnippets st := (Except.ok st, st)
  GetSnippetsUser userID st := (Except.ok (st.filter (fun x => x.UserID == userID)), st)
  CreateSnippet b st := (Except.ok b, b :: st.filter (fun x => x.ID != b.ID))
  UpdateSnippetMulti b st :=
    match st.find? (fun x => x.ID == b.ID) with
    | none => (Except.error "sql: no rows in result set", st)
    | some _ => (Except.ok b, st.map (fun x => if x.ID == b.ID then b else x))
  UpdateSnippetSingle id field value st :=
    match st.find? (fun x => x.ID == id) with
    | none => (Except.error "sql: no rows in result set", st)
    | some y =>
      (Except.ok (setField y field value),
        st.map (fun x => if x.ID == id then setField y field value else x))
  DeleteSnippet id st := (none, st.filter (fun x => x.ID != id))

/-- The controller over the finite-map store. -/
def mapController : SnippetController (List Snippet) := ⟨mapStore⟩

/-! ## Concrete requests and states used to run the handlers -/

/-- A stored snippet with id s1 owned by user u1. -/
def snippetS1 : Snippet := ⟨"s1", "u1", "t", "d", "c"⟩

/-- A request on path id s1 from the session of `user`, carrying `body`. -/
def requestS1 (user : String) (body : Option (List (String × String))) : Request :=
  ⟨some ⟨user⟩, fun _ => "s1", body⟩

/-- A full snippet payload; the client also supplies an id and an owner id. -/
def fullBody : List (String × String) :=
  [("id", "evil"), ("userID", "mallory"), ("title", "t"), ("description", "d"), ("code", "c")]

/-- A single-field payload. -/
def oneBody (field value : String) : List (String × String) :=
  [("field", field), ("value", value)]

/-- A request from `session` whose path values all read `id`, carrying `body`. -/
def requestOn (session : Option Session) (id : String)
    (body : Option (List (String × String))) : Request :=
  ⟨session, fun _ => id, body⟩

/-- The payload of the scenario: title t, description d, code c. -/
def scenarioBody : List (String × String) :=
  [("title", "t"), ("description", "d"), ("code", "c")]

/-- A canonical identifier as `uuid.NewString()` returns it. -/
def sampleUUID : UUID := ⟨"123e4567-e89b-12d3-a456-426614174000", by decide⟩

/-- Modelled from the spec: the create operation of `services.SnippetStore` (snipnet/lib/services,
outside the controller file) returns, on success, the created snippet, that is the record
it was handed. -/
def SnippetStore.ReturnsCreated {σ : Type} (S : SnippetStore σ) : Prop :=
  ∀ b st snippet, (S.CreateSnippet b st).1 = Except.ok snippet → snippet = b

/-! ## Auxiliary facts -/

theorem UUID.str_ne_empty (newID : UUID) : newID.str ≠ "" := by
  intro h
  have hlen := newID.canonical
  rw [h] at hlen
  exact absurd hlen (by decide)

theorem mapStore_ReturnsCreated : mapStore.ReturnsCreated := by
  intro b st snippet h
  simp only [mapStore, Except.ok.injEq] at h
  exact h.symm

theorem find?_filter_ne (id : String) (l : List Snippet) :
    (l.filter (fun x => x.ID != id)).find? (fun x => x.ID == id) = none := by
  simp [List.find?_eq_none, List.mem_filter]

/-! ## Theorems -/

section theorems
variable {σ : Type}

/-- C8. DeleteSnippet, for a request carrying a session: 404 when the lookup of the path id
fails; otherwise 401 when the session user is not the owner; otherwise 500 when the store
delete fails; otherwise 204 with an empty body. The store delete is invoked exactly when
the snippet exists and the session user owns it, and then with the path id used for the
lookup. -/
theorem DeleteSnippet_sequence (s : SnippetController σ) (r : Request) (session : Session)
    (st : σ) (hs : r.AuthSession = some session) :
    ∃ out, s.DeleteSnippet r (World.fresh st) = some out ∧
      (∀ e, (s.snippets.GetSnippet (r.PathValue "id") st).1 = Except.error e →
        out.1.status = 404 ∧ out.2.calls = [StoreCall.GetSnippet (r.PathValue "id")] ∧
        out.2.state = (s.snippets.GetSnippet (r.PathValue "id") st).2) ∧
      (∀ sp, (s.snippets.GetSnippet (r.PathValue "id") st).1 = Except.ok sp →
        (session.UserID ≠ sp.UserID →
          out.1.status = 401 ∧ out.2.calls = [StoreCall.GetSnippet (r.PathValue "id")] ∧
          out.2.state = (s.snippets.GetSnippet (r.PathValue "id") st).2) ∧
        (session.UserID = sp.UserID →
          out.2.calls = [StoreCall.GetSnippet (r.PathValue "id"),
            StoreCall.DeleteSnippet (r.PathValue "id")] ∧
          out.2.state = (s.snippets.DeleteSnippet (r.PathValue "id")
            (s.snippets.GetSnippet (r.PathValue "id") st).2).2 ∧
          (∀ e, (s.snippets.DeleteSnippet (r.PathValue "id")
              (s.snippets.GetSnippet (r.PathValue "id") st).2).1 = some e →
            out.1.status = 500) ∧
          ((s.snippets.DeleteSnippet (r.PathValue "id")
              (s.snippets.GetSnippet (r.PathValue "id") st).2).1 = none →
            out.1 = ⟨204, "", Payload.empty⟩))) ∧
      ((∃ c ∈ out.2.calls, c.isDelete = true) ↔
        ∃ sp, (s.snippets.GetSnippet (r.PathValue "id") st).1 = Except.ok sp ∧
          session.UserID = sp.UserID) ∧
      (∀ c ∈ out.2.calls, c.isMutation = true →
        c = StoreCall.DeleteSnippet (r.PathValue "id")) := by
  simp only [SnippetController.DeleteSnippet, hs, SnippetStore.callGetSnippet,
    SnippetStore.callDeleteSnippet, World.fresh]
  cases hg : (s.snippets.GetSnippet (r.PathValue "id") st).1 with
  | error e => simp [WriteErr, StatusNotFound, StoreCall.isDelete, StoreCall.isMutation]
  | ok sp =>
    by_cases ho : session.UserID = sp.UserID
    · cases hd : (s.snippets.DeleteSnippet (r.PathValue "id")
          (s.snippets.GetSnippet (r.PathValue "id") st).2).1 with
      | none =>
        simp [ho, hd, WriteHeader, StatusNoContent, StoreCall.isDelete, StoreCall.isMutation]
      | some e =>
        simp [ho, hd, WriteErr, StatusInternalServerError, StoreCall.isDelete,
          StoreCall.isMutation]
    · simp [ho, WriteErr, StatusUnauthorized, StoreCall.isDelete, StoreCall.isMutation]

/-- C6. UpdateSnippetMulti, for a request carrying a session, answers by the first failing
step: 400 when the body fails to parse or to validate; otherwise 404 when the lookup of
the path id fails; otherwise 401 when the session user is not the owner; otherwise 500
when the store multi-field update fails; otherwise 200 carrying exactly the snippet the
store update returned. The store multi-field update is invoked exactly when the first
three steps pass, and then once. -/
theorem UpdateSnippetMulti_sequence (u : Utils) (s : SnippetController σ) (r : Request)
    (session : Session) (st : σ) (hs : r.AuthSession = some session) :
    ∃ out, s.UpdateSnippetMulti u r (World.fresh st) = some out ∧
      (∀ e, u.ParseJsonSnippet r = Except.error e →
        out.1.status = 400 ∧ out.2.calls = [] ∧ out.2.state = st) ∧
      (∀ body, u.ParseJsonSnippet r = Except.ok body →
        (∀ e, u.ValidateSnippet body = some e →
          out.1.status = 400 ∧ out.2.calls = [] ∧ out.2.state = st) ∧
        (u.ValidateSnippet body = none →
          (∀ e, (s.snippets.GetSnippet (r.PathValue "id") st).1 = Except.error e →
            out.1.status = 404 ∧ out.2.calls = [StoreCall.GetSnippet (r.PathValue "id")] ∧
            out.2.state = (s.snippets.GetSnippet (r.PathValue "id") st).2) ∧
          (∀ sp, (s.snippets.GetSnippet (r.PathValue "id") st).1 = Except.ok sp →
            (session.UserID ≠ sp.UserID →
              out.1.status = 401 ∧
              out.2.calls = [StoreCall.GetSnippet (r.PathValue "id")] ∧
              out.2.state = (s.snippets.GetSnippet (r.PathValue "id") st).2) ∧
            (session.UserID = sp.UserID →
              out.2.calls = [StoreCall.GetSnippet (r.PathValue "id"),
                StoreCall.UpdateSnippetMulti
                  ⟨sp.ID, sp.UserID, body.Title, body.Description, body.Code⟩] ∧
              out.2.state = (s.snippets.UpdateSnippetMulti
                ⟨sp.ID, sp.UserID, body.Title, body.Description, body.Code⟩
                (s.snippets.GetSnippet (r.PathValue "id") st).2).2 ∧
              (∀ e, (s.snippets.UpdateSnippetMulti
                  ⟨sp.ID, sp.UserID, body.Title, body.Description, body.Code⟩
                  (s.snippets.GetSnippet (r.PathValue "id") st).2).1 = Except.error e →
                out.1.status = 500) ∧
              (∀ snippet, (s.snippets.UpdateSnippetMulti
                  ⟨sp.ID, sp.UserID, body.Title, body.Description, body.Code⟩
                  (s.snippets.GetSnippet (r.PathValue "id") st).2).1 = Except.ok snippet →
                out.1 = ⟨200, "Updated snippet", Payload.snippet snippet⟩))))) ∧
      (out.2.calls.countP StoreCall.isUpdateMulti = 1 ↔
        ∃ body sp, u.ParseJsonSnippet r = Except.ok body ∧ u.ValidateSnippet body = none ∧
          (s.snippets.GetSnippet (r.PathValue "id") st).1 = Except.ok sp ∧
          session.UserID = sp.UserID) ∧
      out.2.calls.countP StoreCall.isUpdateMulti ≤ 1 := by
  simp only [SnippetController.UpdateSnippetMulti, hs, SnippetStore.callGetSnippet,
    SnippetStore.callUpdateSnippetMulti, World.fresh]
  cases hp : u.ParseJsonSnippet r with
  | error e => simp [WriteErr, StatusBadRequest]
  | ok body =>
    cases hv : u.ValidateSnippet body with
    | some e => simp [hv, WriteErr, StatusBadRequest]
    | none =>
      cases hg : (s.snippets.GetSnippet (r.PathValue "id") st).1 with
      | error e => simp [hv, WriteErr, StatusNotFound, StoreCall.isUpdateMulti]
      | ok sp =>
        by_cases ho : session.UserID = sp.UserID
        · cases hm : (s.snippets.UpdateSnippetMulti
              ⟨sp.ID, sp.UserID, body.Title, body.Description, body.Code⟩
              (s.snippets.GetSnippet (r.PathValue "id") st).2).1 with
          | error e =>
            simp [hv, ho, hm, WriteErr, StatusInternalServerError, StoreCall.isUpdateMulti]
          | ok snippet =>
            simp [hv, ho, hm, WriteRes, StatusOK, StoreCall.isUpdateMulti]
        · simp [hv, ho, WriteErr, StatusUnauthorized, StoreCall.isUpdateMulti]

/-- C7. UpdateSnippetOne, for a request carrying a session, answers by the first failing
step: 400 when the body fails to parse or to validate; otherwise 404 when the lookup of
the path id fails; otherwise 401 when the session user is not the owner (whatever the
field); otherwise 400 when the field is not title, description or code; otherwise 400
when the store single-field update fails; otherwise 200 carrying exactly the snippet the
store returned. The status is never 500. -/
theorem UpdateSnippetOne_sequence (u : Utils) (s : SnippetController σ) (r : Request)
    (session : Session) (st : σ) (hs : r.AuthSession = some session) :
    ∃ out, s.UpdateSnippetOne u r (World.fresh st) = some out ∧
      (∀ e, u.ParseJsonUpdateOne r = Except.error e →
        out.1.status = 400 ∧ out.2.calls = [] ∧ out.2.state = st) ∧
      (∀ body, u.ParseJsonUpdateOne r = Except.ok body →
        (∀ e, u.ValidateUpdateOne body = some e →
          out.1.status = 400 ∧ out.2.calls = [] ∧ out.2.state = st) ∧
        (u.ValidateUpdateOne body = none →
          (∀ e, (s.snippets.GetSnippet (r.PathValue "id") st).1 = Except.error e →
            out.1.status = 404 ∧ out.2.calls = [StoreCall.GetSnippet (r.PathValue "id")] ∧
            out.2.state = (s.snippets.GetSnippet (r.PathValue "id") st).2) ∧
          (∀ sp, (s.snippets.GetSnippet (r.PathValue "id") st).1 = Except.ok sp →
            (session.UserID ≠ sp.UserID →
              out.1.status = 401 ∧
              out.2.calls = [StoreCall.GetSnippet (r.PathValue "id")] ∧
              out.2.state = (s.snippets.GetSnippet (r.PathValue "id") st).2) ∧
            (session.UserID = sp.UserID →
              (body.Field ≠ "title" ∧ body.Field ≠ "description" ∧ body.Field ≠ "code" →
                out.1.status = 400 ∧
                out.2.calls = [StoreCall.GetSnippet (r.PathValue "id")] ∧
                out.2.state = (s.snippets.GetSnippet (r.PathValue "id") st).2) ∧
              (body.Field = "title" ∨ body.Field = "description" ∨ body.Field = "code" →
                out.2.calls = [StoreCall.GetSnippet (r.PathValue "id"),
                  StoreCall.UpdateSnippetSingle (r.PathValue "id") body.Field body.Value] ∧
                out.2.state = (s.snippets.UpdateSnippetSingle (r.PathValue "id") body.Field
                  body.Value (s.snippets.GetSnippet (r.PathValue "id") st).2).2 ∧
                (∀ e, (s.snippets.UpdateSnippetSingle (r.PathValue "id") body.Field
                    body.Value (s.snippets.GetSnippet (r.PathValue "id") st).2).1
                      = Except.error e →
                  out.1.status = 400) ∧
                (∀ snippet, (s.snippets.UpdateSnippetSingle (r.PathValue "id") body.Field
                    body.Value (s.snippets.GetSnippet (r.PathValue "id") st).2).1
                      = Except.ok snippet →
                  out.1 = ⟨200, "Updated snippet", Payload.snippet snippet⟩)))))) ∧
      out.1.status ≠ 500 := by
  simp only [SnippetController.UpdateSnippetOne, hs, SnippetStore.callGetSnippet,
    SnippetStore.callUpdateSnippetSingle, World.fresh]
  cases hp : u.ParseJsonUpdateOne r with
  | error e => simp [WriteErr, StatusBadRequest]
  | ok body =>
    cases hv : u.ValidateUpdateOne body with
    | some e => simp [hv, WriteErr, StatusBadRequest]
    | none =>
      cases hg : (s.snippets.GetSnippet (r.PathValue "id") st).1 with
      | error e => simp [hv, WriteErr, StatusNotFound]
      | ok sp =>
        by_cases ho : session.UserID = sp.UserID
        · by_cases hf : body.Field ≠ "title" ∧ body.Field ≠ "description" ∧
              body.Field ≠ "code"
          · have hf2 : ¬ (body.Field = "title" ∨ body.Field = "description" ∨
                body.Field = "code") := by
              rintro (h | h | h)
              · exact hf.1 h
              · exact hf.2.1 h
              · exact hf.2.2 h
            simp [hv, ho, hf, hf2, WriteErr, StatusBadRequest]
          · have hf2 : body.Field = "title" ∨ body.Field = "description" ∨
                body.Field = "code" := by
              by_contra hc
              exact hf ⟨fun h => hc (Or.inl h), fun h => hc (Or.inr (Or.inl h)),
                fun h => hc (Or.inr (Or.inr h))⟩
            cases hm : (s.snippets.UpdateSnippetSingle (r.PathValue "id") body.Field
                body.Value (s.snippets.GetSnippet (r.PathValue "id") st).2).1 with
            | error e =>
              rcases hf2 with h | h | h <;> rw [h] at hm <;>
                simp [hv, ho, hm, h, WriteErr, StatusBadRequest]
            | ok snippet =>
              rcases hf2 with h | h | h <;> rw [h] at hm <;>
                simp [hv, ho, hm, h, WriteRes, StatusOK]
        · simp [hv, ho, WriteErr, StatusUnauthorized]

/-- C4. Whenever UpdateSnippetMulti invokes the store multi-field update, the snippet it
passes has the ID and UserID of the record GetSnippet returned for the path id, whatever
the body held in those fields; whenever UpdateSnippetOne invokes the store single-field
update, the field name it passes is one of title, description, code (never the id or the
owner), for the path id. -/
theorem update_calls_keep_id_and_owner (u : Utils) (s : SnippetController σ) (r : Request)
    (session : Session) (st : σ) (hs : r.AuthSession = some session) :
    (∃ out, s.UpdateSnippetMulti u r (World.fresh st) = some out ∧
      ∀ b, StoreCall.UpdateSnippetMulti b ∈ out.2.calls →
        ∃ sp, (s.snippets.GetSnippet (r.PathValue "id") st).1 = Except.ok sp ∧
          b.ID = sp.ID ∧ b.UserID = sp.UserID) ∧
    (∃ out, s.UpdateSnippetOne u r (World.fresh st) = some out ∧
      ∀ id field value, StoreCall.UpdateSnippetSingle id field value ∈ out.2.calls →
        (field = "title" ∨ field = "description" ∨ field = "code") ∧
          id = r.PathValue "id") := by
  constructor
  · simp only [SnippetController.UpdateSnippetMulti, hs, SnippetStore.callGetSnippet,
      SnippetStore.callUpdateSnippetMulti, World.fresh]
    cases hp : u.ParseJsonSnippet r with
    | error e => simp
    | ok body =>
      cases hv : u.ValidateSnippet body with
      | some e => simp [hv]
      | none =>
        cases hg : (s.snippets.GetSnippet (r.PathValue "id") st).1 with
        | error e => simp [hv]
        | ok sp =>
          by_cases ho : session.UserID = sp.UserID
          · cases hm : (s.snippets.UpdateSnippetMulti
                ⟨sp.ID, sp.UserID, body.Title, body.Description, body.Code⟩
                (s.snippets.GetSnippet (r.PathValue "id") st).2).1 with
            | error e => simp [hv, ho, hm]
            | ok snippet => simp [hv, ho, hm]
          · simp [hv, ho]
  · simp only [SnippetController.UpdateSnippetOne, hs, SnippetStore.callGetSnippet,
      SnippetStore.callUpdateSnippetSingle, World.fresh]
    cases hp : u.ParseJsonUpdateOne r with
    | error e => simp
    | ok body =>
      cases hv : u.ValidateUpdateOne body with
      | some e => simp [hv]
      | none =>
        cases hg : (s.snippets.GetSnippet (r.PathValue "id") st).1 with
        | error e => simp [hv]
        | ok sp =>
          by_cases ho : session.UserID = sp.UserID
          · by_cases hf : body.Field = "title" ∨ body.Field = "description" ∨
                body.Field = "code"
            · cases hm : (s.snippets.UpdateSnippetSingle (r.PathValue "id") body.Field
                  body.Value (s.snippets.GetSnippet (r.PathValue "id") st).2).1 with
              | error e =>
                rcases hf with h | h | h <;> rw [h] at hm <;> simp [hv, ho, hm, h] <;>
                  (rintro _ _ _ rfl rfl rfl; simp)
              | ok snippet =>
                rcases hf with h | h | h <;> rw [h] at hm <;> simp [hv, ho, hm, h] <;>
                  (rintro _ _ _ rfl rfl rfl; simp)
            · have hf2 : body.Field ≠ "title" ∧ body.Field ≠ "description" ∧
                  body.Field ≠ "code" :=
                ⟨fun h => hf (Or.inl h), fun h => hf (Or.inr (Or.inl h)),
                  fun h => hf (Or.inr (Or.inr h))⟩
              simp [hv, ho, hf2]
          · simp [hv, ho]

/-- C5. CreateSnippet, for a request carrying a session. When the body parses and validates,
the snippet handed to the store create has the freshly generated id and the session user
as owner, whatever id and owner the body held, its other fields being those of the body;
a store error gives 500; a store success gives 201 carrying the snippet the store
returned, which (the store returning the created snippet) has the fresh, non-empty id and
the session user as owner. When the body fails to parse or to validate the response is
400 and the store create is not invoked. -/
theorem CreateSnippet_contract (u : Utils) (newID : UUID) (s : SnippetController σ)
    (r : Request) (session : Session) (st : σ) (hs : r.AuthSession = some session) :
    ∃ out, s.CreateSnippet u newID r (World.fresh st) = some out ∧
      (∀ e, u.ParseJsonSnippet r = Except.error e →
        out.1.status = 400 ∧ out.2.calls = [] ∧ out.2.state = st) ∧
      (∀ body, u.ParseJsonSnippet r = Except.ok body →
        (∀ e, u.ValidateSnippet body = some e →
          out.1.status = 400 ∧ out.2.calls = [] ∧ out.2.state = st) ∧
        (u.ValidateSnippet body = none →
          out.2.calls = [StoreCall.CreateSnippet
            ⟨newID.str, session.UserID, body.Title, body.Description, body.Code⟩] ∧
          out.2.state = (s.snippets.CreateSnippet
            ⟨newID.str, session.UserID, body.Title, body.Description, body.Code⟩ st).2 ∧
          (∀ e, (s.snippets.CreateSnippet
              ⟨newID.str, session.UserID, body.Title, body.Description, body.Code⟩ st).1
                = Except.error e →
            out.1.status = 500) ∧
          (∀ snippet, (s.snippets.CreateSnippet
              ⟨newID.str, session.UserID, body.Title, body.Description, body.Code⟩ st).1
                = Except.ok snippet →
            out.1 = ⟨201, "Snippet created", Payload.snippet snippet⟩ ∧
            (s.snippets.ReturnsCreated →
              snippet.ID = newID.str ∧ snippet.ID ≠ "" ∧
              snippet.UserID = session.UserID)))) := by
  simp only [SnippetController.CreateSnippet, hs, SnippetStore.callCreateSnippet, World.fresh]
  cases hp : u.ParseJsonSnippet r with
  | error e => simp [WriteErr, StatusBadRequest]
  | ok body =>
    cases hv : u.ValidateSnippet body with
    | some e => simp [hv, WriteErr, StatusBadRequest]
    | none =>
      cases hc : (s.snippets.CreateSnippet
          ⟨newID.str, session.UserID, body.Title, body.Description, body.Code⟩ st).1 with
      | error e => simp [hv, hc, WriteErr, StatusInternalServerError]
      | ok snippet =>
        simp only [hv, hc, WriteRes, StatusCreated, List.nil_append, Option.some.injEq,
          exists_eq_left', reduceCtorEq, false_implies, implies_true, true_and, and_true,
          Except.ok.injEq, forall_eq']
        intro _ hret
        have hb := hret _ _ _ hc
        subst hb
        exact ⟨rfl, newID.str_ne_empty, rfl⟩

/-- C9. Each read handler answers 404 exactly when its single store call returns an error
and otherwise 200 carrying the store result unchanged; its only store call is that read,
so no mutating operation is invoked; and its outcome depends on the request only through
the path value it reads, hence is the same for every session and for no session. -/
theorem read_handlers (s : SnippetController σ) (r : Request) (st : σ) :
    (((s.GetSnippetByID r (World.fresh st)).1.status = 404 ↔
        ∃ e, (s.snippets.GetSnippet (r.PathValue "id") st).1 = Except.error e) ∧
      (∀ sn, (s.snippets.GetSnippet (r.PathValue "id") st).1 = Except.ok sn →
        (s.GetSnippetByID r (World.fresh st)).1 = ⟨200, "Snippet found", Payload.snippet sn⟩) ∧
      (s.GetSnippetByID r (World.fresh st)).2.calls
        = [StoreCall.GetSnippet (r.PathValue "id")] ∧
      (s.GetSnippetByID r (World.fresh st)).2.state
        = (s.snippets.GetSnippet (r.PathValue "id") st).2 ∧
      (∀ r2 w, r2.PathValue "id" = r.PathValue "id" →
        s.GetSnippetByID r2 w = s.GetSnippetByID r w)) ∧
    (((s.GetAllSnippets r (World.fresh st)).1.status = 404 ↔
        ∃ e, (s.snippets.GetSnippets st).1 = Except.error e) ∧
      (∀ l, (s.snippets.GetSnippets st).1 = Except.ok l →
        (s.GetAllSnippets r (World.fresh st)).1 = ⟨200, "Snippets found", Payload.snippets l⟩) ∧
      (s.GetAllSnippets r (World.fresh st)).2.calls = [StoreCall.GetSnippets] ∧
      (s.GetAllSnippets r (World.fresh st)).2.state = (s.snippets.GetSnippets st).2 ∧
      (∀ r2 w, s.GetAllSnippets r2 w = s.GetAllSnippets r w)) ∧
    (((s.GetAllUserSnippets r (World.fresh st)).1.status = 404 ↔
        ∃ e, (s.snippets.GetSnippetsUser (r.PathValue "userid") st).1 = Except.error e) ∧
      (∀ l, (s.snippets.GetSnippetsUser (r.PathValue "userid") st).1 = Except.ok l →
        (s.GetAllUserSnippets r (World.fresh st)).1
          = ⟨200, "User\x27s snippets found", Payload.snippets l⟩) ∧
      (s.GetAllUserSnippets r (World.fresh st)).2.calls
        = [StoreCall.GetSnippetsUser (r.PathValue "userid")] ∧
      (s.GetAllUserSnippets r (World.fresh st)).2.state
        = (s.snippets.GetSnippetsUser (r.PathValue "userid") st).2 ∧
      (∀ r2 w, r2.PathValue "userid" = r.PathValue "userid" →
        s.GetAllUserSnippets r2 w = s.GetAllUserSnippets r w)) := by
  refine ⟨?_, ?_, ?_⟩
  · simp only [SnippetController.GetSnippetByID, SnippetStore.callGetSnippet, World.fresh]
    refine ⟨?_, ?_, ?_, ?_, ?_⟩
    · cases hg : (s.snippets.GetSnippet (r.PathValue "id") st).1 <;>
        simp [WriteErr, WriteRes, StatusNotFound, StatusOK]
    · intro sn hg
      simp [hg, WriteRes, StatusOK]
    · cases hg : (s.snippets.GetSnippet (r.PathValue "id") st).1 <;> simp
    · cases hg : (s.snippets.GetSnippet (r.PathValue "id") st).1 <;> simp
    · intro r2 w h
      rw [h]
  · simp only [SnippetController.GetAllSnippets, SnippetStore.callGetSnippets, World.fresh]
    refine ⟨?_, ?_, ?_, ?_, ?_⟩
    · cases hg : (s.snippets.GetSnippets st).1 <;>
        simp [WriteErr, WriteRes, StatusNotFound, StatusOK]
    · intro l hg
      simp [hg, WriteRes, StatusOK]
    · cases hg : (s.snippets.GetSnippets st).1 <;> simp
    · cases hg : (s.snippets.GetSnippets st).1 <;> simp
    · intro r2 w
      trivial
  · simp only [SnippetController.GetAllUserSnippets, SnippetStore.callGetSnippetsUser,
      World.fresh]
    refine ⟨?_, ?_, ?_, ?_, ?_⟩
    · cases hg : (s.snippets.GetSnippetsUser (r.PathValue "userid") st).1 <;>
        simp [WriteErr, WriteRes, StatusNotFound, StatusOK]
    · intro l hg
      simp [hg, WriteRes, StatusOK]
    · cases hg : (s.snippets.GetSnippetsUser (r.PathValue "userid") st).1 <;> simp
    · cases hg : (s.snippets.GetSnippetsUser (r.PathValue "userid") st).1 <;> simp
    · intro r2 w h
      rw [h]

/-- C1 (amended). On an existing snippet whose owner differs from the session user:
DeleteSnippet answers 401 and its only store call is the lookup; UpdateSnippetMulti and
UpdateSnippetOne invoke no mutating store operation, answer 401 (the lookup being their
only store call) when the body parses and validates, and answer 400 without any store
call when it does not. -/
theorem nonowner_is_refused (u : Utils) (s : SnippetController σ) (r : Request)
    (session : Session) (st : σ) (sp : Snippet) (hs : r.AuthSession = some session)
    (hg : (s.snippets.GetSnippet (r.PathValue "id") st).1 = Except.ok sp)
    (ho : session.UserID ≠ sp.UserID) :
    (∃ out, s.DeleteSnippet r (World.fresh st) = some out ∧
      out.1.status = 401 ∧ out.2.calls = [StoreCall.GetSnippet (r.PathValue "id")] ∧
      out.2.state = (s.snippets.GetSnippet (r.PathValue "id") st).2) ∧
    (∃ out, s.UpdateSnippetMulti u r (World.fresh st) = some out ∧
      (∀ c ∈ out.2.calls, c.isMutation = false) ∧
      ((∃ body, u.ParseJsonSnippet r = Except.ok body ∧ u.ValidateSnippet body = none) →
        out.1.status = 401 ∧ out.2.calls = [StoreCall.GetSnippet (r.PathValue "id")] ∧
        out.2.state = (s.snippets.GetSnippet (r.PathValue "id") st).2) ∧
      (¬ (∃ body, u.ParseJsonSnippet r = Except.ok body ∧ u.ValidateSnippet body = none) →
        out.1.status = 400 ∧ out.2.calls = [] ∧ out.2.state = st)) ∧
    (∃ out, s.UpdateSnippetOne u r (World.fresh st) = some out ∧
      (∀ c ∈ out.2.calls, c.isMutation = false) ∧
      ((∃ body, u.ParseJsonUpdateOne r = Except.ok body ∧ u.ValidateUpdateOne body = none) →
        out.1.status = 401 ∧ out.2.calls = [StoreCall.GetSnippet (r.PathValue "id")] ∧
        out.2.state = (s.snippets.GetSnippet (r.PathValue "id") st).2) ∧
      (¬ (∃ body, u.ParseJsonUpdateOne r = Except.ok body ∧
          u.ValidateUpdateOne body = none) →
        out.1.status = 400 ∧ out.2.calls = [] ∧ out.2.state = st)) := by
  refine ⟨?_, ?_, ?_⟩
  · simp [SnippetController.DeleteSnippet, hs, SnippetStore.callGetSnippet, World.fresh, hg,
      ho, WriteErr, StatusUnauthorized]
  · simp only [SnippetController.UpdateSnippetMulti, hs, SnippetStore.callGetSnippet,
      World.fresh]
    cases hp : u.ParseJsonSnippet r with
    | error e => simp [WriteErr, StatusBadRequest]
    | ok body =>
      cases hv : u.ValidateSnippet body with
      | some e => simp [hv, WriteErr, StatusBadRequest]
      | none => simp [hv, hg, ho, WriteErr, StatusUnauthorized, StoreCall.isMutation]
  · simp only [SnippetController.UpdateSnippetOne, hs, SnippetStore.callGetSnippet,
      World.fresh]
    cases hp : u.ParseJsonUpdateOne r with
    | error e => simp [WriteErr, StatusBadRequest]
    | ok body =>
      cases hv : u.ValidateUpdateOne body with
      | some e => simp [hv, WriteErr, StatusBadRequest]
      | none => simp [hv, hg, ho, WriteErr, StatusUnauthorized, StoreCall.isMutation]

/-- C1 (counterexample). Snippet s1 exists and is owned by u1; the session user is u2; the
request carries no payload: UpdateSnippetMulti answers 400, not 401. -/
theorem UpdateSnippetMulti_nonowner_without_payload :
    (mapController.snippets.GetSnippet ((requestS1 "u2" none).PathValue "id") [snippetS1]).1
        = Except.ok snippetS1 ∧
      (requestS1 "u2" none).AuthSession = some ⟨"u2"⟩ ∧
      (⟨"u2"⟩ : Session).UserID ≠ snippetS1.UserID ∧
      (mapController.UpdateSnippetMulti stdUtils (requestS1 "u2" none)
          (World.fresh [snippetS1])).map (fun o => o.1.status) = some 400 :=
  ⟨rfl, rfl, by decide, by decide⟩

/-- C2 (amended). When the lookup of the path id fails: GetSnippetByID and DeleteSnippet
answer 404 with the lookup as their only store call; UpdateSnippetMulti and
UpdateSnippetOne invoke no mutating store operation, answer 404 (the lookup being their
only store call) when the body parses and validates, and answer 400 without any store
call when it does not. -/
theorem missing_id_is_not_found (u : Utils) (s : SnippetController σ) (r : Request)
    (session : Session) (st : σ) (e : Err) (hs : r.AuthSession = some session)
    (hg : (s.snippets.GetSnippet (r.PathValue "id") st).1 = Except.error e) :
    ((s.GetSnippetByID r (World.fresh st)).1.status = 404 ∧
      (s.GetSnippetByID r (World.fresh st)).2.calls
        = [StoreCall.GetSnippet (r.PathValue "id")]) ∧
    (∃ out, s.DeleteSnippet r (World.fresh st) = some out ∧
      out.1.status = 404 ∧ out.2.calls = [StoreCall.GetSnippet (r.PathValue "id")] ∧
      out.2.state = (s.snippets.GetSnippet (r.PathValue "id") st).2) ∧
    (∃ out, s.UpdateSnippetMulti u r (World.fresh st) = some out ∧
      (∀ c ∈ out.2.calls, c.isMutation = false) ∧
      ((∃ body, u.ParseJsonSnippet r = Except.ok body ∧ u.ValidateSnippet body = none) →
        out.1.status = 404 ∧ out.2.calls = [StoreCall.GetSnippet (r.PathValue "id")] ∧
        out.2.state = (s.snippets.GetSnippet (r.PathValue "id") st).2) ∧
      (¬ (∃ body, u.ParseJsonSnippet r = Except.ok body ∧ u.ValidateSnippet body = none) →
        out.1.status = 400 ∧ out.2.calls = [] ∧ out.2.state = st)) ∧
    (∃ out, s.UpdateSnippetOne u r (World.fresh st) = some out ∧
      (∀ c ∈ out.2.calls, c.isMutation = false) ∧
      ((∃ body, u.ParseJsonUpdateOne r = Except.ok body ∧ u.ValidateUpdateOne body = none) →
        out.1.status = 404 ∧ out.2.calls = [StoreCall.GetSnippet (r.PathValue "id")] ∧
        out.2.state = (s.snippets.GetSnippet (r.PathValue "id") st).2) ∧
      (¬ (∃ body, u.ParseJsonUpdateOne r = Except.ok body ∧
          u.ValidateUpdateOne body = none) →
        out.1.status = 400 ∧ out.2.calls = [] ∧ out.2.state = st)) := by
  refine ⟨?_, ?_, ?_, ?_⟩
  · simp [SnippetController.GetSnippetByID, SnippetStore.callGetSnippet, World.fresh, hg,
      WriteErr, StatusNotFound]
  · simp [SnippetController.DeleteSnippet, hs, SnippetStore.callGetSnippet, World.fresh, hg,
      WriteErr, StatusNotFound]
  · simp only [SnippetController.UpdateSnippetMulti, hs, SnippetStore.callGetSnippet,
      World.fresh]
    cases hp : u.ParseJsonSnippet r with
    | error e => simp [WriteErr, StatusBadRequest]
    | ok body =>
      cases hv : u.ValidateSnippet body with
      | some e => simp [hv, WriteErr, StatusBadRequest]
      | none => simp [hv, hg, WriteErr, StatusNotFound, StoreCall.isMutation]
  · simp only [SnippetController.UpdateSnippetOne, hs, SnippetStore.callGetSnippet,
      World.fresh]
    cases hp : u.ParseJsonUpdateOne r with
    | error e => simp [WriteErr, StatusBadRequest]
    | ok body =>
      cases hv : u.ValidateUpdateOne body with
      | some e => simp [hv, WriteErr, StatusBadRequest]
      | none => simp [hv, hg, WriteErr, StatusNotFound, StoreCall.isMutation]

/-- C2 (counterexample). The store is empty, so the lookup of s1 fails; the request carries
no payload: UpdateSnippetOne answers 400, not 404. -/
theorem UpdateSnippetOne_missing_id_without_payload :
    (mapController.snippets.GetSnippet ((requestS1 "u1" none).PathValue "id") []).1
        = Except.error "sql: no rows in result set" ∧
      (mapController.UpdateSnippetOne stdUtils (requestS1 "u1" none)
          (World.fresh [])).map (fun o => o.1.status) = some 400 :=
  ⟨rfl, by decide⟩

/-- C3 (amended). For an UpdateSnippetOne request whose body parses with a field name other
than title, description and code, the only store call that can occur is the lookup of
the path id: the single-field update is never invoked and the value never reaches the
store. The response is 400 without any store call when the body fails validation;
otherwise it is 404 when the lookup fails, 401 when the session user is not the owner,
and 400 (invalid field) when the session user is the owner. -/
theorem disallowed_field_never_reaches_store (u : Utils) (s : SnippetController σ)
    (r : Request) (session : Session) (st : σ) (body : UpdateOneData)
    (hs : r.AuthSession = some session) (hp : u.ParseJsonUpdateOne r = Except.ok body)
    (hf : body.Field ≠ "title" ∧ body.Field ≠ "description" ∧ body.Field ≠ "code") :
    ∃ out, s.UpdateSnippetOne u r (World.fresh st) = some out ∧
      (∀ c ∈ out.2.calls, c = StoreCall.GetSnippet (r.PathValue "id")) ∧
      (∀ e, u.ValidateUpdateOne body = some e →
        out.1.status = 400 ∧ out.2.calls = [] ∧ out.2.state = st) ∧
      (u.ValidateUpdateOne body = none →
        out.2.calls = [StoreCall.GetSnippet (r.PathValue "id")] ∧
        out.2.state = (s.snippets.GetSnippet (r.PathValue "id") st).2 ∧
        (∀ e, (s.snippets.GetSnippet (r.PathValue "id") st).1 = Except.error e →
          out.1.status = 404) ∧
        (∀ sp, (s.snippets.GetSnippet (r.PathValue "id") st).1 = Except.ok sp →
          (session.UserID ≠ sp.UserID → out.1.status = 401) ∧
          (session.UserID = sp.UserID →
            out.1 = ⟨400, "You can\x27t updated that parameter",
              Payload.error "Invalid field Value"⟩))) := by
  simp only [SnippetController.UpdateSnippetOne, hs, hp, SnippetStore.callGetSnippet,
    World.fresh]
  cases hv : u.ValidateUpdateOne body with
  | some e => simp [hv, WriteErr, StatusBadRequest]
  | none =>
    cases hg : (s.snippets.GetSnippet (r.PathValue "id") st).1 with
    | error e => simp [hv, WriteErr, StatusNotFound]
    | ok sp =>
      by_cases ho : session.UserID = sp.UserID
      · simp [hv, ho, hf, WriteErr, StatusBadRequest]
      · simp [hv, ho, WriteErr, StatusUnauthorized]

/-- C3 (counterexample). User u2 asks to set the field userID of snippet s1, owned by u1:
the field is not allow-listed, yet the response is 401, not 400, and the store has been
called (the lookup). -/
theorem UpdateSnippetOne_disallowed_field_nonowner :
    stdUtils.ParseJsonUpdateOne (requestS1 "u2" (some (oneBody "userID" "u2")))
        = Except.ok ⟨"userID", "u2"⟩ ∧
      ("userID" ≠ "title" ∧ "userID" ≠ "description" ∧ "userID" ≠ "code") ∧
      (mapController.UpdateSnippetOne stdUtils
          (requestS1 "u2" (some (oneBody "userID" "u2")))
          (World.fresh [snippetS1])).map (fun o => (o.1.status, o.2.calls))
        = some (401, [StoreCall.GetSnippet "s1"]) :=
  ⟨rfl, by decide, by decide⟩

/-- C10. Over the finite-map store, for distinct users u1 and u2 and a body that parses and
validates: CreateSnippet as u1 answers 201 with a snippet owned by u1 under the fresh id;
DeleteSnippet of that id as u2 then answers 401 and the snippet stays retrievable;
DeleteSnippet of that id as u1 then answers 204; GetSnippetByID of that id then answers
404. -/
theorem create_delete_scenario (u : Utils) (newID : UUID) (u1 u2 : String) (body : Snippet)
    (rc rd2 rd1 rg : Request) (st : List Snippet) (hne : u1 ≠ u2)
    (hc : rc.AuthSession = some ⟨u1⟩) (hp : u.ParseJsonSnippet rc = Except.ok body)
    (hv : u.ValidateSnippet body = none)
    (h2 : rd2.AuthSession = some ⟨u2⟩) (h2id : rd2.PathValue "id" = newID.str)
    (h1 : rd1.AuthSession = some ⟨u1⟩) (h1id : rd1.PathValue "id" = newID.str)
    (hgid : rg.PathValue "id" = newID.str) :
    ∃ o1 o2 o3,
      mapController.CreateSnippet u newID rc (World.fresh st) = some o1 ∧
      o1.1 = ⟨201, "Snippet created",
        Payload.snippet ⟨newID.str, u1, body.Title, body.Description, body.Code⟩⟩ ∧
      mapController.DeleteSnippet rd2 o1.2 = some o2 ∧
      o2.1.status = 401 ∧
      (mapController.GetSnippetByID rg o2.2).1 = ⟨200, "Snippet found",
        Payload.snippet ⟨newID.str, u1, body.Title, body.Description, body.Code⟩⟩ ∧
      mapController.DeleteSnippet rd1 o2.2 = some o3 ∧
      o3.1 = ⟨204, "", Payload.empty⟩ ∧
      (mapController.GetSnippetByID rg o3.2).1.status = 404 := by
  have hne2 : ¬ (u2 = u1) := fun h => hne h.symm
  have hfind : ∀ l : List Snippet,
      List.find? (fun x => x.ID == newID.str)
        ((⟨newID.str, u1, body.Title, body.Description, body.Code⟩ : Snippet) :: l)
        = some ⟨newID.str, u1, body.Title, body.Description, body.Code⟩ := by
    intro l
    simp [List.find?_cons]
  have e1 : mapController.CreateSnippet u newID rc (World.fresh st) =
      some (⟨201, "Snippet created",
          Payload.snippet ⟨newID.str, u1, body.Title, body.Description, body.Code⟩⟩,
        ⟨⟨newID.str, u1, body.Title, body.Description, body.Code⟩ ::
            st.filter (fun x => x.ID != newID.str),
          [StoreCall.CreateSnippet
            ⟨newID.str, u1, body.Title, body.Description, body.Code⟩]⟩) := by
    simp [SnippetController.CreateSnippet, SnippetStore.callCreateSnippet, World.fresh,
      mapController, mapStore, hc, hp, hv, WriteRes, StatusCreated]
  have e2 : ∀ w : World (List Snippet),
      w.state = ⟨newID.str, u1, body.Title, body.Description, body.Code⟩ ::
        st.filter (fun x => x.ID != newID.str) →
      mapController.DeleteSnippet rd2 w =
        some (WriteErr 401 "You are not authorized to access this resource" "Not authorized",
          ⟨w.state, w.calls ++ [StoreCall.GetSnippet newID.str]⟩) := by
    intro w hw
    simp [SnippetController.DeleteSnippet, SnippetStore.callGetSnippet, mapController,
      mapStore, h2, h2id, hw, hfind, hne2, StatusUnauthorized]
  have e3 : ∀ w : World (List Snippet),
      w.state = ⟨newID.str, u1, body.Title, body.Description, body.Code⟩ ::
        st.filter (fun x => x.ID != newID.str) →
      mapController.DeleteSnippet rd1 w =
        some (⟨204, "", Payload.empty⟩,
          ⟨w.state.filter (fun x => x.ID != newID.str),
            w.calls ++ [StoreCall.GetSnippet newID.str] ++
              [StoreCall.DeleteSnippet newID.str]⟩) := by
    intro w hw
    simp [SnippetController.DeleteSnippet, SnippetStore.callGetSnippet,
      SnippetStore.callDeleteSnippet, mapController, mapStore, h1, h1id, hw, hfind,
      WriteHeader, StatusNoContent]
  refine ⟨_, _, _, e1, rfl, e2 _ rfl, rfl, ?_, e3 _ rfl, rfl, ?_⟩
  · simp [SnippetController.GetSnippetByID, SnippetStore.callGetSnippet, mapController,
      mapStore, hgid, hfind, WriteRes, StatusOK]
  · simp only [SnippetController.GetSnippetByID, SnippetStore.callGetSnippet, mapController,
      mapStore, hgid, find?_filter_ne, WriteErr, StatusNotFound]

end theorems

/-! ## The theorems at concrete requests -/

/-- C1 (amended), at a request of user u2 on snippet s1 owned by u1, with a full payload. -/
theorem nonowner_is_refused_witness :
    (requestS1 "u2" (some fullBody)).AuthSession = some ⟨"u2"⟩ ∧
    (mapController.snippets.GetSnippet ((requestS1 "u2" (some fullBody)).PathValue "id")
        [snippetS1]).1 = Except.ok snippetS1 ∧
    (⟨"u2"⟩ : Session).UserID ≠ snippetS1.UserID ∧
    (∃ out, mapController.DeleteSnippet (requestS1 "u2" (some fullBody))
        (World.fresh [snippetS1]) = some out ∧
      out.1.status = 401 ∧ out.2.calls = [StoreCall.GetSnippet "s1"] ∧
      out.2.state = [snippetS1]) ∧
    (∃ out, mapController.UpdateSnippetMulti stdUtils (requestS1 "u2" (some fullBody))
        (World.fresh [snippetS1]) = some out ∧
      out.1.status = 401 ∧ out.2.calls = [StoreCall.GetSnippet "s1"] ∧
      out.2.state = [snippetS1]) := by
  obtain ⟨⟨o1, h1, h1s, h1c, h1t⟩, ⟨o2, h2, _, h2ok, _⟩, _⟩ :=
    nonowner_is_refused stdUtils mapController (requestS1 "u2" (some fullBody)) ⟨"u2"⟩
      [snippetS1] snippetS1 rfl rfl (by decide)
  have h2b := h2ok ⟨⟨"evil", "mallory", "t", "d", "c"⟩, rfl, rfl⟩
  exact ⟨rfl, rfl, by decide, ⟨o1, h1, h1s, h1c, h1t⟩, ⟨o2, h2, h2b.1, h2b.2.1, h2b.2.2⟩⟩

/-- C2 (amended), at a request on the id s1 over the empty store, with a full payload. -/
theorem missing_id_is_not_found_witness :
    (requestS1 "u1" (some fullBody)).AuthSession = some ⟨"u1"⟩ ∧
    (mapController.snippets.GetSnippet ((requestS1 "u1" (some fullBody)).PathValue "id")
        []).1 = Except.error "sql: no rows in result set" ∧
    (mapController.GetSnippetByID (requestS1 "u1" (some fullBody)) (World.fresh [])).1.status
      = 404 ∧
    (∃ out, mapController.DeleteSnippet (requestS1 "u1" (some fullBody))
        (World.fresh []) = some out ∧
      out.1.status = 404 ∧ out.2.calls = [StoreCall.GetSnippet "s1"] ∧ out.2.state = []) ∧
    (∃ out, mapController.UpdateSnippetMulti stdUtils (requestS1 "u1" (some fullBody))
        (World.fresh []) = some out ∧
      out.1.status = 404 ∧ out.2.calls = [StoreCall.GetSnippet "s1"] ∧
      out.2.state = []) := by
  obtain ⟨⟨hg, _⟩, ⟨o1, h1, h1s, h1c, h1t⟩, ⟨o2, h2, _, h2ok, _⟩, _⟩ :=
    missing_id_is_not_found stdUtils mapController (requestS1 "u1" (some fullBody)) ⟨"u1"⟩
      [] "sql: no rows in result set" rfl rfl
  have h2b := h2ok ⟨⟨"evil", "mallory", "t", "d", "c"⟩, rfl, rfl⟩
  exact ⟨rfl, rfl, hg, ⟨o1, h1, h1s, h1c, h1t⟩, ⟨o2, h2, h2b.1, h2b.2.1, h2b.2.2⟩⟩

/-- C3 (amended), at a request of the owner u1 to set the field userID of snippet s1. -/
theorem disallowed_field_never_reaches_store_witness :
    (requestS1 "u1" (some (oneBody "userID" "u2"))).AuthSession = some ⟨"u1"⟩ ∧
    stdUtils.ParseJsonUpdateOne (requestS1 "u1" (some (oneBody "userID" "u2")))
      = Except.ok ⟨"userID", "u2"⟩ ∧
    ("userID" ≠ "title" ∧ "userID" ≠ "description" ∧ "userID" ≠ "code") ∧
    (∃ out, mapController.UpdateSnippetOne stdUtils
        (requestS1 "u1" (some (oneBody "userID" "u2"))) (World.fresh [snippetS1]) = some out ∧
      out.1.status = 400 ∧ out.2.calls = [StoreCall.GetSnippet "s1"] ∧
      out.2.state = [snippetS1]) := by
  obtain ⟨out, h, _, _, hv⟩ :=
    disallowed_field_never_reaches_store stdUtils mapController
      (requestS1 "u1" (some (oneBody "userID" "u2"))) ⟨"u1"⟩ [snippetS1] ⟨"userID", "u2"⟩
      rfl rfl (by decide)
  have hb := hv rfl
  have hr := (hb.2.2.2 snippetS1 rfl).2 rfl
  exact ⟨rfl, rfl, by decide, ⟨out, h, by rw [hr], hb.1, hb.2.1⟩⟩

/-- C4, at a request of the owner u1 on snippet s1 whose payload names another id and
another owner. -/
theorem update_calls_keep_id_and_owner_witness :
    (requestS1 "u1" (some fullBody)).AuthSession = some ⟨"u1"⟩ ∧
    (∃ out, mapController.UpdateSnippetMulti stdUtils (requestS1 "u1" (some fullBody))
        (World.fresh [snippetS1]) = some out ∧
      ∀ b, StoreCall.UpdateSnippetMulti b ∈ out.2.calls →
        ∃ sp, (mapController.snippets.GetSnippet
            ((requestS1 "u1" (some fullBody)).PathValue "id") [snippetS1]).1 = Except.ok sp ∧
          b.ID = sp.ID ∧ b.UserID = sp.UserID) :=
  ⟨rfl, (update_calls_keep_id_and_owner stdUtils mapController
    (requestS1 "u1" (some fullBody)) ⟨"u1"⟩ [snippetS1] rfl).1⟩

/-- C5, at a request of user u1 over the empty finite-map store, whose payload names
another id and another owner. -/
theorem CreateSnippet_contract_witness :
    (requestS1 "u1" (some fullBody)).AuthSession = some ⟨"u1"⟩ ∧
    (∃ out snippet, mapController.CreateSnippet stdUtils sampleUUID
        (requestS1 "u1" (some fullBody)) (World.fresh []) = some out ∧
      out.1 = ⟨201, "Snippet created", Payload.snippet snippet⟩ ∧
      snippet.ID = sampleUUID.str ∧ snippet.ID ≠ "" ∧ snippet.UserID = "u1" ∧
      out.2.calls = [StoreCall.CreateSnippet ⟨sampleUUID.str, "u1", "t", "d", "c"⟩]) := by
  obtain ⟨out, h, _, hok⟩ :=
    CreateSnippet_contract stdUtils sampleUUID mapController (requestS1 "u1" (some fullBody))
      ⟨"u1"⟩ [] rfl
  have hb := (hok ⟨"evil", "mallory", "t", "d", "c"⟩ rfl).2 rfl
  have hr := hb.2.2.2 ⟨sampleUUID.str, "u1", "t", "d", "c"⟩ rfl
  have hi := hr.2 mapStore_ReturnsCreated
  exact ⟨rfl, out, _, h, hr.1, hi.1, hi.2.1, hi.2.2, hb.1⟩

/-- C6, at a request of the owner u1 on snippet s1 with a full payload. -/
theorem UpdateSnippetMulti_sequence_witness :
    (requestS1 "u1" (some fullBody)).AuthSession = some ⟨"u1"⟩ ∧
    (∃ out, mapController.UpdateSnippetMulti stdUtils (requestS1 "u1" (some fullBody))
        (World.fresh [snippetS1]) = some out ∧
      out.1 = ⟨200, "Updated snippet", Payload.snippet ⟨"s1", "u1", "t", "d", "c"⟩⟩ ∧
      out.2.calls = [StoreCall.GetSnippet "s1",
        StoreCall.UpdateSnippetMulti ⟨"s1", "u1", "t", "d", "c"⟩]) := by
  obtain ⟨out, h, _, hok, _⟩ :=
    UpdateSnippetMulti_sequence stdUtils mapController (requestS1 "u1" (some fullBody))
      ⟨"u1"⟩ [snippetS1] rfl
  have hb := (((hok ⟨"evil", "mallory", "t", "d", "c"⟩ rfl).2 rfl).2 snippetS1 rfl).2 rfl
  exact ⟨rfl, out, h, hb.2.2.2 ⟨"s1", "u1", "t", "d", "c"⟩ rfl, hb.1⟩

/-- C7, at a request of the owner u1 to set the title of snippet s1. -/
theorem UpdateSnippetOne_sequence_witness :
    (requestS1 "u1" (some (oneBody "title" "new"))).AuthSession = some ⟨"u1"⟩ ∧
    (∃ out, mapController.UpdateSnippetOne stdUtils
        (requestS1 "u1" (some (oneBody "title" "new"))) (World.fresh [snippetS1]) = some out ∧
      out.1 = ⟨200, "Updated snippet", Payload.snippet ⟨"s1", "u1", "new", "d", "c"⟩⟩ ∧
      out.2.calls = [StoreCall.GetSnippet "s1",
        StoreCall.UpdateSnippetSingle "s1" "title" "new"] ∧
      out.1.status ≠ 500) := by
  obtain ⟨out, h, _, hok, h500⟩ :=
    UpdateSnippetOne_sequence stdUtils mapController
      (requestS1 "u1" (some (oneBody "title" "new"))) ⟨"u1"⟩ [snippetS1] rfl
  have hb := ((((hok ⟨"title", "new"⟩ rfl).2 rfl).2 snippetS1 rfl).2 rfl).2 (Or.inl rfl)
  exact ⟨rfl, out, h, hb.2.2.2 ⟨"s1", "u1", "new", "d", "c"⟩ rfl, hb.1, h500⟩

/-- C8, at a request of the owner u1 to delete snippet s1. -/
theorem DeleteSnippet_sequence_witness :
    (requestS1 "u1" none).AuthSession = some ⟨"u1"⟩ ∧
    (∃ out, mapController.DeleteSnippet (requestS1 "u1" none) (World.fresh [snippetS1])
        = some out ∧
      out.1 = ⟨204, "", Payload.empty⟩ ∧
      out.2.calls = [StoreCall.GetSnippet "s1", StoreCall.DeleteSnippet "s1"] ∧
      out.2.state = []) := by
  obtain ⟨out, h, _, hok, _⟩ :=
    DeleteSnippet_sequence mapController (requestS1 "u1" none) ⟨"u1"⟩ [snippetS1] rfl
  have hb := (hok snippetS1 rfl).2 rfl
  exact ⟨rfl, out, h, hb.2.2.2 rfl, hb.1, hb.2.1⟩

/-- C10, at the instance of the scenario: title t, description d, code c, users u1 and u2,
over the empty finite-map store. -/
theorem create_delete_scenario_witness :
    ("u1" ≠ "u2" ∧
      (requestOn (some ⟨"u1"⟩) "" (some scenarioBody)).AuthSession = some ⟨"u1"⟩ ∧
      stdUtils.ParseJsonSnippet (requestOn (some ⟨"u1"⟩) "" (some scenarioBody))
        = Except.ok ⟨"", "", "t", "d", "c"⟩ ∧
      stdUtils.ValidateSnippet ⟨"", "", "t", "d", "c"⟩ = none ∧
      (requestOn (some ⟨"u2"⟩) sampleUUID.str none).AuthSession = some ⟨"u2"⟩ ∧
      (requestOn (some ⟨"u2"⟩) sampleUUID.str none).PathValue "id" = sampleUUID.str ∧
      (requestOn (some ⟨"u1"⟩) sampleUUID.str none).AuthSession = some ⟨"u1"⟩ ∧
      (requestOn (some ⟨"u1"⟩) sampleUUID.str none).PathValue "id" = sampleUUID.str ∧
      (requestOn none sampleUUID.str none).PathValue "id" = sampleUUID.str) ∧
    ∃ o1 o2 o3,
      mapController.CreateSnippet stdUtils sampleUUID
        (requestOn (some ⟨"u1"⟩) "" (some scenarioBody)) (World.fresh []) = some o1 ∧
      o1.1 = ⟨201, "Snippet created",
        Payload.snippet ⟨sampleUUID.str, "u1", "t", "d", "c"⟩⟩ ∧
      mapController.DeleteSnippet (requestOn (some ⟨"u2"⟩) sampleUUID.str none) o1.2
        = some o2 ∧
      o2.1.status = 401 ∧
      (mapController.GetSnippetByID (requestOn none sampleUUID.str none) o2.2).1
        = ⟨200, "Snippet found", Payload.snippet ⟨sampleUUID.str, "u1", "t", "d", "c"⟩⟩ ∧
      mapController.DeleteSnippet (requestOn (some ⟨"u1"⟩) sampleUUID.str none) o2.2
        = some o3 ∧
      o3.1 = ⟨204, "", Payload.empty⟩ ∧
      (mapController.GetSnippetByID (requestOn none sampleUUID.str none) o3.2).1.status
        = 404 :=
  ⟨⟨by decide, rfl, rfl, rfl, rfl, rfl, rfl, rfl, rfl⟩,
    create_delete_scenario stdUtils sampleUUID "u1" "u2" ⟨"", "", "t", "d", "c"⟩
      (requestOn (some ⟨"u1"⟩) "" (some scenarioBody))
      (requestOn (some ⟨"u2"⟩) sampleUUID.str none)
      (requestOn (some ⟨"u1"⟩) sampleUUID.str none)
      (requestOn none sampleUUID.str none) [] (by decide) rfl rfl rfl rfl rfl rfl rfl rfl⟩

end Snipnet
